import Mathlib

/-!
# Verification of the ActiveTeams backend session / authorization core

Shallow embedding of the auth subsystem of `main.py` and `auth/utils.py`
(signup, login, refresh-token rotation, logout, role gate, token codec)
and of the event check-in / uncapture endpoints.

Modelling conventions:
* time is in seconds (`Nat`); `datetime.utcnow()` becomes a `now : Nat`
  argument; `timedelta(minutes=m)` is `m * 60` and `timedelta(days=d)` is
  `d * 86400` seconds.
* Mongo collections are Lean lists of records; `find_one` is `List.find?`
  (first match in insertion order) and `update_one` updates the first
  matching record (`updateFirst`).
* randomness (`secrets.token_urlsafe`, bcrypt salts) is threaded in as
  explicit arguments: every fresh id / secret / salt the endpoint draws is
  a parameter of the Lean function.
* bcrypt hashes (passlib `CryptContext(schemes=["bcrypt"])`) are modelled
  symbolically: `HashStr.bcrypt p s` is the output of hashing plaintext
  `p` with salt `s`; `HashStr.malformed s` is a string that is not in any
  hash format the context recognizes.  Per passlib's documented contract,
  `CryptContext.verify` raises `UnknownHashError` (a `ValueError`) when
  the hash string cannot be identified, and otherwise returns whether the
  secret matches; the model's `verify_password` returns
  `Except PasslibError Bool` accordingly.
* JWTs (python-jose, HS256 with the process-wide secret) are modelled
  symbolically: `Jwt.signed p` is a token correctly signed with the
  server secret carrying payload `p`; `Jwt.invalid s` is a token whose
  signature or format verification fails.  `jose.jwt.decode` checks the
  signature first (`JWTError` → "Invalid token") and then the `exp`
  claim (`ExpiredSignatureError` → "Token has expired", raised exactly
  when `exp < now`, leeway 0).
-/

namespace ActiveTeams

/-! ## Credential hasher (auth/utils.py lines 18-27) -/

/-- A string stored where a password hash is expected: either a bcrypt
hash produced from a plaintext and a salt, or a string that is not in any
recognizable hash format. -/
inductive HashStr where
  | bcrypt (plain : String) (salt : Nat)
  | malformed (s : String)
deriving DecidableEq

/-- passlib error raised by `CryptContext.verify` on an unidentifiable
hash string (`passlib.exc.UnknownHashError`, a `ValueError`). -/
inductive PasslibError where
  | unknownHash
deriving DecidableEq

/-- `hash_password(password)` (auth/utils.py line 22): bcrypt-hash the
plaintext; the salt is drawn by bcrypt and threaded in explicitly. -/
def hash_password (password : String) (salt : Nat) : HashStr :=
  HashStr.bcrypt password salt

/-- `pwd_context.verify` with `schemes=["bcrypt"]`: raises
`UnknownHashError` when the hash cannot be identified as a bcrypt hash,
otherwise returns whether the plaintext matches the hashed plaintext. -/
def pwd_context_verify (plain : String) (h : HashStr) : Except PasslibError Bool :=
  match h with
  | HashStr.bcrypt p _ => Except.ok (plain == p)
  | HashStr.malformed _ => Except.error PasslibError.unknownHash

/-- `verify_password(plain_password, hashed_password)` (auth/utils.py
lines 26-27): delegates to `pwd_context.verify` with no exception
handling, so a passlib error propagates to the caller. -/
def verify_password (plain_password : String) (hashed_password : HashStr) :
    Except PasslibError Bool :=
  pwd_context_verify plain_password hashed_password

/-- `true` for strings that are well-formed bcrypt hashes (the only
strings the repository ever stores in hash fields, since they all come
from `hash_password`). -/
def HashStr.wellFormed : HashStr → Bool
  | HashStr.bcrypt _ _ => true
  | HashStr.malformed _ => false

/-! ## Token codec (auth/utils.py lines 30-57) -/

/-- The claims the endpoints put into an access token
(`{"user_id": ..., "email": ..., "role": ...}`).  `role = none` models a
payload whose `role` key is absent. -/
structure TokenClaims where
  user_id : String
  email : String
  role : Option String
deriving DecidableEq

/-- A decoded JWT payload: the caller's claims plus the `iat` and `exp`
claims stamped by `create_access_token`. -/
structure Payload where
  claims : TokenClaims
  iat : Nat
  exp : Nat
deriving DecidableEq

/-- A presented bearer token: either correctly signed with the server
secret (carrying the payload it was encoded from), or a token whose
signature / format verification fails. -/
inductive Jwt where
  | signed (p : Payload)
  | invalid (s : String)
deriving DecidableEq

/-- `ACCESS_TOKEN_EXPIRE_MINUTES` (auth/utils.py line 16, env default). -/
def ACCESS_TOKEN_EXPIRE_MINUTES : Nat := 60

/-- `JWT_EXPIRE_MINUTES` (main.py line 33, env default of
`ACCESS_TOKEN_EXPIRE_MINUTES`). -/
def JWT_EXPIRE_MINUTES : Nat := 60

/-- `REFRESH_TOKEN_EXPIRE_DAYS` (main.py line 34, env default). -/
def REFRESH_TOKEN_EXPIRE_DAYS : Nat := 30

/-- HTTP-style errors the endpoints raise (`HTTPException`), tagged with
the cases of the spec's error taxonomy. -/
inductive HErr where
  | emailTaken
  | weakPassword
  | invalidCredentials
  | refreshInvalid
  | tokenExpired
  | tokenInvalid
  | roleMissing
  | forbidden
  | notFound (detail : String)
  | badRequest (detail : String)
  | internal (detail : String)
deriving DecidableEq

/-- HTTP status code of each error, as raised by the source. -/
def HErr.status : HErr → Nat
  | HErr.emailTaken => 400
  | HErr.weakPassword => 400
  | HErr.invalidCredentials => 401
  | HErr.refreshInvalid => 401
  | HErr.tokenExpired => 401
  | HErr.tokenInvalid => 401
  | HErr.roleMissing => 403
  | HErr.forbidden => 403
  | HErr.notFound _ => 404
  | HErr.badRequest _ => 400
  | HErr.internal _ => 500

/-- `detail` string of each error, as raised by the source. -/
def HErr.detail : HErr → String
  | HErr.emailTaken => "Email already registered"
  | HErr.weakPassword => "Password must be at least 8 characters and include letters and numbers"
  | HErr.invalidCredentials => "Invalid credentials"
  | HErr.refreshInvalid => "Invalid or expired refresh token"
  | HErr.tokenExpired => "Token has expired"
  | HErr.tokenInvalid => "Invalid token"
  | HErr.roleMissing => "Role not present in token"
  | HErr.forbidden => "Insufficient permissions"
  | HErr.notFound d => d
  | HErr.badRequest d => d
  | HErr.internal d => d

/-- `create_access_token(data, expires_delta)` (auth/utils.py lines
30-36): stamp `iat = now` and `exp = now + ttl` (default ttl
`ACCESS_TOKEN_EXPIRE_MINUTES` minutes) onto the claims and sign. -/
def create_access_token (data : TokenClaims) (now : Nat) (expires_delta : Option Nat) : Jwt :=
  Jwt.signed ⟨data, now, now + expires_delta.getD (ACCESS_TOKEN_EXPIRE_MINUTES * 60)⟩

/-- `decode_access_token(token)` (auth/utils.py lines 39-46): jose
verifies the signature (failure → 401 "Invalid token") and then the
`exp` claim (`exp < now` → 401 "Token has expired"); on success the full
payload (claims with `iat`/`exp`) is returned. -/
def decode_access_token (token : Jwt) (now : Nat) : Except HErr Payload :=
  match token with
  | Jwt.invalid _ => Except.error HErr.tokenInvalid
  | Jwt.signed p =>
      if p.exp < now then Except.error HErr.tokenExpired else Except.ok p

/-- `get_current_user` (auth/utils.py lines 49-57): decode the bearer
token and return the payload.  The `if not payload` guard never fires
for a decoded token because the payload always carries `exp`/`iat`. -/
def get_current_user (token : Jwt) (now : Nat) : Except HErr Payload :=
  decode_access_token token now

/-- `require_role(*allowed_roles)` (auth/utils.py lines 60-75): decode
the token, reject a falsy role (`if not role`, i.e. absent or empty)
with 403 "Role not present in token", pass `admin` unconditionally, and
otherwise require membership of the allow-list. -/
def require_role (allowed_roles : List String) (token : Jwt) (now : Nat) :
    Except HErr Payload :=
  match decode_access_token token now with
  | Except.error e => Except.error e
  | Except.ok payload =>
      match payload.claims.role with
      | none => Except.error HErr.roleMissing
      | some role =>
          if role == "" then Except.error HErr.roleMissing
          else if role == "admin" then Except.ok payload
          else if allowed_roles.contains role then Except.ok payload
          else Except.error HErr.forbidden

/-! ## User records (Users collection) -/

/-- A document of the `Users` collection, with the fields `main.py`
reads and writes.  `uid` is the Mongo `_id`; an `Option` field is `none`
when the field is absent / `null`. -/
structure UserRec where
  uid : Nat
  name : String
  surname : String
  date_of_birth : String
  home_address : String
  invited_by : String
  phone_number : String
  email : String
  gender : String
  password : HashStr
  role : Option String
  created_at : Nat
  refresh_token_id : Option String
  refresh_token_hash : Option HashStr
  refresh_token_expires : Option Nat
deriving DecidableEq

/-- `UserCreate` request model (auth/models.py lines 6-16). -/
structure UserCreate where
  name : String
  surname : String
  date_of_birth : String
  home_address : String
  invited_by : String
  phone_number : String
  email : String
  gender : String
  password : String
  role : Option String
deriving DecidableEq

/-- `UserLogin` request model (auth/models.py lines 18-20). -/
structure UserLogin where
  email : String
  password : String
deriving DecidableEq

/-- `update_one`: apply `f` to the first element satisfying `p`, leaving
everything else unchanged (Mongo updates the first matching document). -/
def updateFirst {α : Type} (p : α → Bool) (f : α → α) : List α → List α
  | [] => []
  | u :: rest => if p u then f u :: rest else u :: updateFirst p f rest

/-- ASCII letter, the character class `[A-Za-z]`. -/
def isAsciiLetter (c : Char) : Bool :=
  ('A' ≤ c && c ≤ 'Z') || ('a' ≤ c && c ≤ 'z')

/-- Python `re.match` of `PASSWORD_REGEX = ^(?=.*[A-Za-z])(?=.*\d).{8,}$`
(main.py line 129) on a list of characters.  `.` does not match a
newline and `$` also matches just before a single trailing newline, so a
match is: the prefix before the first newline has length at least 8 and
contains an ASCII letter and a digit, and nothing but an optional single
newline follows it.  (`\d` is modelled as an ASCII digit.) -/
def regexCore (cs : List Char) : Bool :=
  let pre := cs.takeWhile (fun c => c != '\n')
  let rest := cs.dropWhile (fun c => c != '\n')
  decide (8 ≤ pre.length) && pre.any isAsciiLetter && pre.any Char.isDigit
    && (rest.isEmpty || rest == ['\n'])

/-- `PASSWORD_REGEX.match(user.password)` (main.py line 137). -/
def password_regex_match (p : String) : Bool :=
  regexCore p.data

/-- The user document `signup` inserts (main.py lines 143-163).  The
role is `getattr(user, "role", None) or "user"`: Python `or` falls back
to `"user"` on a falsy role (absent or empty string). -/
def mkSignupUser (u : UserCreate) (uid now salt : Nat) : UserRec :=
  { uid := uid
    name := u.name
    surname := u.surname
    date_of_birth := u.date_of_birth
    home_address := u.home_address
    invited_by := u.invited_by
    phone_number := u.phone_number
    email := u.email
    gender := u.gender
    password := hash_password u.password salt
    role := some (match u.role with
      | none => "user"
      | some r => if r == "" then "user" else r)
    created_at := now
    refresh_token_id := none
    refresh_token_hash := none
    refresh_token_expires := none }

/-- `POST /signup` (main.py lines 131-164): reject a duplicate email
(400), reject a password failing `PASSWORD_REGEX` (400), otherwise
insert the new user and return a message — no tokens are issued. -/
def signup (db : List UserRec) (u : UserCreate) (uid now salt : Nat) :
    Except HErr (String × List UserRec) :=
  match db.find? (fun v => v.email == u.email) with
  | some _ => Except.error HErr.emailTaken
  | none =>
      if password_regex_match u.password then
        Except.ok ("User created successfully", db ++ [mkSignupUser u uid now salt])
      else Except.error HErr.weakPassword

/-- Response of `login` and `refresh_token`: an access token plus the
refresh pair (public id and plaintext secret). -/
structure LoginOut where
  access_token : Jwt
  token_type : String
  refresh_token_id : String
  refresh_token : String
deriving DecidableEq

/-- `existing.get("role", "registrant")` (main.py lines 175 and 216):
the stored role, falling back to `"registrant"` when the field is
absent. -/
def roleForToken (u : UserRec) : String :=
  u.role.getD "registrant"

/-- `timedelta(days=REFRESH_TOKEN_EXPIRE_DAYS)` in seconds. -/
def refreshTtlSeconds : Nat := REFRESH_TOKEN_EXPIRE_DAYS * 86400

/-- The `$set` of a refresh rotation: overwrite the user's single
refresh triple with the new id, hash and expiry. -/
def rotateTriple (rid : String) (h : HashStr) (expires : Nat) (u : UserRec) : UserRec :=
  { u with refresh_token_id := some rid
           refresh_token_hash := some h
           refresh_token_expires := some expires }

/-- `POST /login` (main.py lines 167-199): look up by email; 401
"Invalid credentials" on a missing user or a failed hash verification
(the same error either way); on success issue an access token (ttl
`JWT_EXPIRE_MINUTES` minutes) whose role claim is
`existing.get("role", "registrant")`, store a fresh refresh triple on
the user, and return the token plus the refresh pair.  An unhandled
passlib error becomes a 500. -/
def login (db : List UserRec) (lo : UserLogin) (now : Nat)
    (fresh_id fresh_secret : String) (salt : Nat) :
    Except HErr (LoginOut × List UserRec) :=
  match db.find? (fun v => v.email == lo.email) with
  | none => Except.error HErr.invalidCredentials
  | some existing =>
      match verify_password lo.password existing.password with
      | Except.error _ => Except.error (HErr.internal "UnknownHashError")
      | Except.ok false => Except.error HErr.invalidCredentials
      | Except.ok true =>
          let token := create_access_token
            ⟨toString existing.uid, existing.email, some (roleForToken existing)⟩
            now (some (JWT_EXPIRE_MINUTES * 60))
          let rhash := hash_password fresh_secret salt
          let db' := updateFirst (fun v => v.uid == existing.uid)
            (rotateTriple fresh_id rhash (now + refreshTtlSeconds)) db
          Except.ok
            ({ access_token := token, token_type := "bearer",
               refresh_token_id := fresh_id, refresh_token := fresh_secret }, db')

/-- `POST /refresh-token` (main.py lines 202-240): look up the user by
the presented `refresh_token_id`; 401 "Invalid or expired refresh
token" when no user matches, the stored hash is absent, verification of
the presented secret fails, the stored expiry is absent, or the stored
expiry is before now; on success issue a new access token and rotate:
overwrite the user's refresh triple with a fresh one and return the new
pair.  An unhandled passlib error becomes a 500. -/
def refresh_token (db : List UserRec) (now : Nat)
    (payload_id payload_secret : String)
    (new_id new_secret : String) (salt : Nat) :
    Except HErr (LoginOut × List UserRec) :=
  match db.find? (fun v => v.refresh_token_id == some payload_id) with
  | none => Except.error HErr.refreshInvalid
  | some user =>
      match user.refresh_token_hash with
      | none => Except.error HErr.refreshInvalid
      | some h =>
          match verify_password payload_secret h with
          | Except.error _ => Except.error (HErr.internal "UnknownHashError")
          | Except.ok false => Except.error HErr.refreshInvalid
          | Except.ok true =>
              match user.refresh_token_expires with
              | none => Except.error HErr.refreshInvalid
              | some expires =>
                  if expires < now then Except.error HErr.refreshInvalid
                  else
                    let token := create_access_token
                      ⟨toString user.uid, user.email, some (roleForToken user)⟩
                      now (some (JWT_EXPIRE_MINUTES * 60))
                    let db' := updateFirst (fun v => v.uid == user.uid)
                      (rotateTriple new_id (hash_password new_secret salt)
                        (now + refreshTtlSeconds)) db
                    Except.ok
                      ({ access_token := token, token_type := "bearer",
                         refresh_token_id := new_id, refresh_token := new_secret }, db')

/-- The `$set` of `logout`: clear all three refresh-token fields. -/
def revokeRefresh (u : UserRec) : UserRec :=
  { u with refresh_token_id := none
           refresh_token_hash := none
           refresh_token_expires := none }

/-- `POST /logout` (main.py lines 243-256): require a valid access
token (via `get_current_user`), then unconditionally clear the caller's
three refresh-token fields.  The result is reported as success whether
or not a user document matched. -/
def logout (db : List UserRec) (token : Jwt) (now : Nat) :
    Except HErr (String × List UserRec) :=
  match get_current_user token now with
  | Except.error e => Except.error e
  | Except.ok payload =>
      Except.ok ("Logged out successfully",
        updateFirst (fun v => toString v.uid == payload.claims.user_id) revokeRefresh db)

/-! ## Events collection (check-in / uncapture, main.py lines 356-434) -/

/-- An attendee record pushed by `check_in_person`. -/
structure Attendee where
  name : String
  time : Nat
  performed_by : String
deriving DecidableEq

/-- An audit-log entry pushed by `uncapture_person`. -/
structure AuditEntry where
  action : String
  name : String
  time : Nat
  performed_by : String
deriving DecidableEq

/-- A document of the `Events` collection, with the fields the check-in
and uncapture endpoints touch.  `eid` is the Mongo `_id`;
`total_attendance` always exists (event creation and the startup hook
both default it to 0) and `$inc` can take it below zero, hence `Int`. -/
structure EventRec where
  eid : Nat
  service_name : String
  attendees : List Attendee
  total_attendance : Int
  audit_log : List AuditEntry
deriving DecidableEq

/-- `POST /checkin` (main.py lines 356-385): 404 on a missing event,
400 when the name is not in the People collection (case-insensitive
exact match), 400 when an attendee with the same name (case-insensitive)
is already present; otherwise one update pushes the attendee record and
increments `total_attendance` by 1. -/
def check_in_person (evs : List EventRec) (people : List String)
    (event_id : Nat) (name : String) (now : Nat) (performer : String) :
    Except HErr (String × List EventRec) :=
  match evs.find? (fun e => e.eid == event_id) with
  | none => Except.error (HErr.notFound "Event not found")
  | some event =>
      match people.find? (fun p => p.toLower == name.toLower) with
      | none => Except.error (HErr.badRequest "Person not found in people database")
      | some _ =>
          if event.attendees.any (fun a => a.name.toLower == name.toLower) then
            Except.error (HErr.badRequest "Person already checked in")
          else
            Except.ok (name ++ " checked in successfully.",
              updateFirst (fun e => e.eid == event_id)
                (fun e => { e with
                  attendees := e.attendees ++ [⟨name, now, performer⟩],
                  total_attendance := e.total_attendance + 1 }) evs)

/-- `POST /uncapture` (main.py lines 410-434): one combined update pulls
every attendee whose `name` equals the given name (exact, case
sensitive) and decrements `total_attendance` by 1; `modified_count` is 0
exactly when no event matched the id (the `$inc` alone modifies a
matched document), in which case a 404 is raised; otherwise an audit
entry is pushed by a second update and success is reported. -/
def uncapture_person (evs : List EventRec) (event_id : Nat) (name : String)
    (now : Nat) (performer : String) :
    Except HErr (String × List EventRec) :=
  match evs.find? (fun e => e.eid == event_id) with
  | none => Except.error (HErr.notFound "Person not found or already removed")
  | some _ =>
      let evs1 := updateFirst (fun e => e.eid == event_id)
        (fun e => { e with
          attendees := e.attendees.filter (fun a => a.name != name),
          total_attendance := e.total_attendance - 1 }) evs
      let evs2 := updateFirst (fun e => e.eid == event_id)
        (fun e => { e with audit_log := e.audit_log ++ [⟨"uncapture", name, now, performer⟩] })
        evs1
      Except.ok (name ++ " removed from check-ins.", evs2)

/-! ## Spec-side definitions (for refinement-style comparisons) -/

/-- Modelled from the spec §4.1: `verify(plaintext, hash) -> bool`, where
a malformed hash makes verification return false rather than raise. -/
def spec_verify (plain : String) (h : HashStr) : Bool :=
  match verify_password plain h with
  | Except.ok b => b
  | Except.error _ => false

/-- Modelled from the spec §4.3 / claim C2: the per-user part of the
refresh failure condition — the stored hash is absent or does not verify
against the presented secret, or the stored expiry is absent or earlier
than the current time. -/
def spec_stale (now : Nat) (secret : String) (u : UserRec) : Bool :=
  u.refresh_token_hash.isNone
    || !(match u.refresh_token_hash with
          | some h => spec_verify secret h
          | none => false)
    || u.refresh_token_expires.isNone
    || (match u.refresh_token_expires with
          | some e => decide (e < now)
          | none => false)

/-- Modelled from the spec / claim C2: the refresh exchange fails with
`RefreshInvalid` iff no user record carries the presented id, or the
user carrying it has a stale triple. -/
def spec_refresh_invalid (db : List UserRec) (now : Nat) (id secret : String) : Bool :=
  db.all (fun u => !(u.refresh_token_id == some id))
    || db.any (fun u => (u.refresh_token_id == some id) && spec_stale now secret u)

/-- Modelled from the spec / claim C6: login fails iff no user record
has the given email or the stored password hash does not verify against
the given password. -/
def spec_login_invalid (db : List UserRec) (lo : UserLogin) : Bool :=
  db.all (fun u => !(u.email == lo.email))
    || db.any (fun u => (u.email == lo.email) && !(spec_verify lo.password u.password))

/-! ## Well-formedness of a Users collection -/

/-- Every stored refresh-token hash is a well-formed bcrypt hash (true
of every database the repository itself builds, since the only writes
come from `hash_password`). -/
def refreshHashesWF (db : List UserRec) : Bool :=
  db.all (fun u => match u.refresh_token_hash with
    | none => true
    | some h => h.wellFormed)

/-- Every stored password hash is a well-formed bcrypt hash. -/
def passwordsWF (db : List UserRec) : Bool :=
  db.all (fun u => u.password.wellFormed)

deriving instance DecidableEq for Except

/-! ## List helper lemmas -/

theorem find?_split {α : Type} (l : List α) (p : α → Bool) (u : α)
    (h : l.find? p = some u) :
    ∃ l₁ l₂, l = l₁ ++ u :: l₂ ∧ (∀ v ∈ l₁, p v = false) ∧ p u = true := by
  induction l with
  | nil => simp [List.find?] at h
  | cons x rest ih =>
      by_cases hx : p x
      · rw [List.find?_cons_of_pos rest hx] at h
        injection h with h
        subst h
        refine ⟨[], rest, rfl, ?_, hx⟩
        intro v hv
        cases hv
      · rw [List.find?_cons_of_neg rest hx] at h
        obtain ⟨l₁, l₂, heq, hall, hu⟩ := ih h
        refine ⟨x :: l₁, l₂, by rw [heq]; rfl, ?_, hu⟩
        intro v hv
        rcases List.mem_cons.mp hv with hv | hv
        · subst hv; exact Bool.eq_false_iff.mpr hx
        · exact hall v hv

theorem updateFirst_append_cons {α : Type} (p : α → Bool) (f : α → α)
    (l₁ : List α) (u : α) (l₂ : List α)
    (h₁ : ∀ v ∈ l₁, p v = false) (hu : p u = true) :
    updateFirst p f (l₁ ++ u :: l₂) = l₁ ++ f u :: l₂ := by
  induction l₁ with
  | nil => simp [updateFirst, hu]
  | cons x rest ih =>
      have hx := h₁ x (List.mem_cons_self x rest)
      simp only [List.cons_append, updateFirst, hx, if_false, Bool.false_eq_true]
      exact congrArg (fun t => x :: t) (ih (fun v hv => h₁ v (List.mem_cons_of_mem x hv)))

theorem find?_append_cons {α : Type} (p : α → Bool) (l₁ : List α) (x : α) (l₂ : List α)
    (h₁ : ∀ v ∈ l₁, p v = false) (hx : p x = true) :
    (l₁ ++ x :: l₂).find? p = some x := by
  induction l₁ with
  | nil => simpa [List.find?] using List.find?_cons_of_pos l₂ hx
  | cons y rest ih =>
      have hy := h₁ y (List.mem_cons_self y rest)
      rw [List.cons_append, List.find?_cons_of_neg _ (by simp [hy])]
      exact ih (fun v hv => h₁ v (List.mem_cons_of_mem y hv))

theorem find?_updateFirst {α : Type} (p : α → Bool) (f : α → α) (l : List α) (u : α)
    (h : l.find? p = some u) (hf : p (f u) = true) :
    (updateFirst p f l).find? p = some (f u) := by
  obtain ⟨l₁, l₂, rfl, hall, hu⟩ := find?_split l p u h
  rw [updateFirst_append_cons p f l₁ u l₂ hall hu]
  exact find?_append_cons p l₁ (f u) l₂ hall hf

theorem updateFirst_length {α : Type} (p : α → Bool) (f : α → α) (l : List α) :
    (updateFirst p f l).length = l.length := by
  induction l with
  | nil => rfl
  | cons x rest ih =>
      by_cases hx : p x
      · simp [updateFirst, hx]
      · simp [updateFirst, hx, ih]

theorem mem_len_le_one {α : Type} {l : List α} (h : l.length ≤ 1) {a b : α}
    (ha : a ∈ l) (hb : b ∈ l) : a = b := by
  match l with
  | [] => cases ha
  | [x] =>
      rw [List.mem_singleton] at ha hb
      rw [ha, hb]
  | x :: y :: rest => simp at h

theorem filter_unique {α : Type} {l : List α} {p : α → Bool} {u : α}
    (hlen : (l.filter p).length ≤ 1) (hu : u ∈ l) (hpu : p u = true) :
    ∀ v ∈ l, p v = true → v = u := by
  intro v hv hpv
  exact mem_len_le_one hlen (List.mem_filter.mpr ⟨hv, hpv⟩) (List.mem_filter.mpr ⟨hu, hpu⟩)

theorem find?_uid_self {l : List UserRec}
    (hnodup : (l.map (fun v => v.uid)).Nodup) {u : UserRec} (hu : u ∈ l) :
    l.find? (fun v => v.uid == u.uid) = some u := by
  induction l with
  | nil => cases hu
  | cons x rest ih =>
      rcases List.mem_cons.mp hu with h | h
      · subst h
        exact List.find?_cons_of_pos rest (by simp)
      · have hxu : x.uid ≠ u.uid := by
          intro hc
          have : x.uid ∈ rest.map (fun v => v.uid) := by
            rw [hc]
            exact List.mem_map.mpr ⟨u, h, rfl⟩
          exact (List.nodup_cons.mp (by simpa using hnodup)).1 this
        rw [List.find?_cons_of_neg rest (by simp [hxu])]
        exact ih (List.Nodup.of_cons (by simpa using hnodup)) h

/-! ## Claim C4: token codec round-trip and expiry -/

/-- C4: for every claim map and ttl `T`, decoding a token produced by
`create_access_token` immediately after issuance succeeds and returns the
original claims together with the embedded issued-at and expiry times;
decoding the same token at any time strictly after `T` has elapsed fails
with `TokenExpired`; and every successful decode implies the expiry had
not passed (expiry is checked on every decode). -/
theorem C4_token_roundtrip_expiry (c : TokenClaims) (now T : Nat) :
    decode_access_token (create_access_token c now (some T)) now
      = Except.ok ⟨c, now, now + T⟩
    ∧ (∀ t, now + T < t →
        decode_access_token (create_access_token c now (some T)) t
          = Except.error HErr.tokenExpired)
    ∧ (∀ tok t q, decode_access_token tok t = Except.ok q → t ≤ q.exp) := by
  refine ⟨?_, ?_, ?_⟩
  · simp [decode_access_token, create_access_token]
  · intro t ht
    simp [decode_access_token, create_access_token, ht]
  · intro tok t q h
    cases tok with
    | invalid s => simp [decode_access_token] at h
    | signed pp =>
        simp only [decode_access_token] at h
        split at h
        · cases h
        · next hnlt =>
            injection h with h
            subst h
            omega

/-- Witness for C4 at a concrete claim map, issuance time 5 and ttl 10:
decoding at time 5 returns the payload and decoding at time 16 is
expired. -/
theorem C4_witness :
    decode_access_token (create_access_token ⟨"1", "a@x.com", some "user"⟩ 5 (some 10)) 5
      = Except.ok ⟨⟨"1", "a@x.com", some "user"⟩, 5, 15⟩
    ∧ decode_access_token (create_access_token ⟨"1", "a@x.com", some "user"⟩ 5 (some 10)) 16
      = Except.error HErr.tokenExpired := by
  have h := C4_token_roundtrip_expiry ⟨"1", "a@x.com", some "user"⟩ 5 10
  exact ⟨h.1, h.2.1 16 (by decide)⟩

/-! ## Claim C5: verify on malformed hashes -/

/-- C5 counterexample: at the concrete malformed hash `"not-a-hash"`,
`verify_password` does not return false — it raises passlib's
`UnknownHashError` to the caller, refuting the claim that verification
on a malformed hash returns false and never raises. -/
theorem C5_counterexample :
    verify_password "secret0" (HashStr.malformed "not-a-hash") ≠ Except.ok false
    ∧ verify_password "secret0" (HashStr.malformed "not-a-hash")
        = Except.error PasslibError.unknownHash := by
  constructor
  · intro h
    cases h
  · rfl

/-- C5 (amended): on a hash argument that is not in a recognizable hash
format, `verify_password` raises `UnknownHashError` to the caller; on a
well-formed bcrypt hash it returns, without raising, exactly whether the
plaintext equals the hashed plaintext. -/
theorem C5_verify_malformed_raises :
    (∀ p s, verify_password p (HashStr.malformed s)
        = Except.error PasslibError.unknownHash)
    ∧ (∀ p q n, verify_password p (HashStr.bcrypt q n) = Except.ok (p == q)) :=
  ⟨fun _ _ => rfl, fun _ _ _ => rfl⟩

/-! ## Claim C3: the role gate -/

/-- C3: given a token that decodes to payload `p`, the role gate fails
with `RoleMissing` exactly when the decoded claims carry no role (the
`role` key absent or empty, Python's `if not role`); it passes returning
the decoded claims exactly when the role is nonempty and is `admin`
(admin bypass, regardless of the allow-list) or a member of the
allow-list; it fails with `Forbidden` exactly when the role is nonempty,
not `admin` and not in the allow-list.  Concretely, a token with role
`admin` passes a gate configured for `{"editor"}`, a token with role
`viewer` fails it with `Forbidden`, and a token with no role field fails
with `RoleMissing`. -/
theorem C3_role_gate (allowed : List String) (tok : Jwt) (now : Nat) (p : Payload)
    (hdec : decode_access_token tok now = Except.ok p) :
    (require_role allowed tok now = Except.error HErr.roleMissing ↔
      (p.claims.role = none ∨ p.claims.role = some ""))
    ∧ (require_role allowed tok now = Except.ok p ↔
      (∃ r, p.claims.role = some r ∧ r ≠ ""
        ∧ (r = "admin" ∨ allowed.contains r = true)))
    ∧ (require_role allowed tok now = Except.error HErr.forbidden ↔
      (∃ r, p.claims.role = some r ∧ r ≠ "" ∧ r ≠ "admin"
        ∧ allowed.contains r = false))
    ∧ require_role ["editor"] (Jwt.signed ⟨⟨"1", "a@x.com", some "admin"⟩, 0, 100⟩) 0
        = Except.ok ⟨⟨"1", "a@x.com", some "admin"⟩, 0, 100⟩
    ∧ require_role ["editor"] (Jwt.signed ⟨⟨"2", "b@x.com", some "viewer"⟩, 0, 100⟩) 0
        = Except.error HErr.forbidden
    ∧ require_role ["editor"] (Jwt.signed ⟨⟨"3", "c@x.com", none⟩, 0, 100⟩) 0
        = Except.error HErr.roleMissing := by
  have hgate : require_role allowed tok now
      = (match p.claims.role with
        | none => Except.error HErr.roleMissing
        | some role =>
            if role == "" then Except.error HErr.roleMissing
            else if role == "admin" then Except.ok p
            else if allowed.contains role then Except.ok p
            else Except.error HErr.forbidden) := by
    unfold require_role
    rw [hdec]
  have main :
      (require_role allowed tok now = Except.error HErr.roleMissing ↔
        (p.claims.role = none ∨ p.claims.role = some ""))
      ∧ (require_role allowed tok now = Except.ok p ↔
        (∃ r, p.claims.role = some r ∧ r ≠ ""
          ∧ (r = "admin" ∨ allowed.contains r = true)))
      ∧ (require_role allowed tok now = Except.error HErr.forbidden ↔
        (∃ r, p.claims.role = some r ∧ r ≠ "" ∧ r ≠ "admin"
          ∧ allowed.contains r = false)) := by
    rw [hgate]
    cases hrole : p.claims.role with
    | none => exact ⟨by simp, by simp, by simp⟩
    | some r =>
        by_cases hr0 : r = ""
        · subst hr0
          exact ⟨by simp, by simp, by simp⟩
        · by_cases hradmin : r = "admin"
          · subst hradmin
            exact ⟨by simp, by simp, by simp⟩
          · by_cases rmem : r ∈ allowed
            · exact ⟨by simp [hr0, hradmin, rmem], by simp [hr0, hradmin, rmem],
                by simp [hr0, hradmin, rmem]⟩
            · exact ⟨by simp [hr0, hradmin, rmem], by simp [hr0, hradmin, rmem],
                by simp [hr0, hradmin, rmem]⟩
  exact ⟨main.1, main.2.1, main.2.2, by decide, by decide, by decide⟩

/-- Witness for C3 at a concrete allow-list and decodable admin token. -/
theorem C3_witness :
    require_role ["editor"] (Jwt.signed ⟨⟨"1", "a@x.com", some "admin"⟩, 0, 100⟩) 0
      = Except.ok ⟨⟨"1", "a@x.com", some "admin"⟩, 0, 100⟩ := by
  have h := C3_role_gate ["editor"] (Jwt.signed ⟨⟨"1", "a@x.com", some "admin"⟩, 0, 100⟩) 0
    ⟨⟨"1", "a@x.com", some "admin"⟩, 0, 100⟩ (by decide)
  exact h.2.1.mpr ⟨"admin", rfl, by decide, Or.inl rfl⟩

/-! ## Claim C8: logout clears the refresh triple and nothing else -/

/-- C8: for every caller presenting a valid access token, logout
succeeds and updates the database by clearing the caller's three
refresh-token fields unconditionally (`revokeRefresh`), which changes no
other field of the matched user record; and the presented access token
still decodes successfully at any time up to its own expiry (logout does
not invalidate it). -/
theorem C8_logout_revokes_only_refresh (db : List UserRec) (tok : Jwt) (now : Nat)
    (p : Payload) (hdec : decode_access_token tok now = Except.ok p) :
    ∃ db', logout db tok now = Except.ok ("Logged out successfully", db')
      ∧ db' = updateFirst (fun v => toString v.uid == p.claims.user_id) revokeRefresh db
      ∧ (∀ u, db.find? (fun v => toString v.uid == p.claims.user_id) = some u →
          db'.find? (fun v => toString v.uid == p.claims.user_id)
            = some (revokeRefresh u))
      ∧ (∀ u : UserRec,
          (revokeRefresh u).refresh_token_id = none
          ∧ (revokeRefresh u).refresh_token_hash = none
          ∧ (revokeRefresh u).refresh_token_expires = none
          ∧ (revokeRefresh u).uid = u.uid
          ∧ (revokeRefresh u).name = u.name
          ∧ (revokeRefresh u).surname = u.surname
          ∧ (revokeRefresh u).date_of_birth = u.date_of_birth
          ∧ (revokeRefresh u).home_address = u.home_address
          ∧ (revokeRefresh u).invited_by = u.invited_by
          ∧ (revokeRefresh u).phone_number = u.phone_number
          ∧ (revokeRefresh u).email = u.email
          ∧ (revokeRefresh u).gender = u.gender
          ∧ (revokeRefresh u).password = u.password
          ∧ (revokeRefresh u).role = u.role
          ∧ (revokeRefresh u).created_at = u.created_at)
      ∧ (∀ t, t ≤ p.exp → decode_access_token tok t = Except.ok p) := by
  refine ⟨updateFirst (fun v => toString v.uid == p.claims.user_id) revokeRefresh db,
    ?_, rfl, ?_, ?_, ?_⟩
  · unfold logout get_current_user
    rw [hdec]
  · intro u hu
    have hpu : (fun v => toString v.uid == p.claims.user_id) u = true :=
      List.find?_some (p := fun (v : UserRec) => toString v.uid == p.claims.user_id) hu
    have hpf : (fun v => toString v.uid == p.claims.user_id) (revokeRefresh u) = true := hpu
    exact find?_updateFirst _ _ db u hu hpf
  · intro u
    exact ⟨rfl, rfl, rfl, rfl, rfl, rfl, rfl, rfl, rfl, rfl, rfl, rfl, rfl, rfl, rfl⟩
  · intro t ht
    cases tok with
    | invalid s => simp [decode_access_token] at hdec
    | signed q =>
        simp only [decode_access_token] at hdec ⊢
        split at hdec
        · cases hdec
        · next hnlt =>
            injection hdec with hq
            subst hq
            rw [if_neg (by omega)]

/-- Witness for C8: a concrete user with uid 7 and a stored refresh
triple, logging out with a token for uid 7 issued at time 0 expiring at
100. -/
theorem C8_witness :
    ∃ db', logout
        [{ uid := 7, name := "Ada", surname := "L", date_of_birth := "1990-01-01",
           home_address := "addr", invited_by := "x", phone_number := "000",
           email := "a@x.com", gender := "f", password := HashStr.bcrypt "Passw0rd" 0,
           role := some "user", created_at := 0,
           refresh_token_id := some "rid0",
           refresh_token_hash := some (HashStr.bcrypt "rsec0" 1),
           refresh_token_expires := some 1000 }]
        (Jwt.signed ⟨⟨"7", "a@x.com", some "user"⟩, 0, 100⟩) 1
        = Except.ok ("Logged out successfully", db')
      ∧ db' = updateFirst
          (fun v => toString v.uid == ("7" : String)) revokeRefresh
          [{ uid := 7, name := "Ada", surname := "L", date_of_birth := "1990-01-01",
             home_address := "addr", invited_by := "x", phone_number := "000",
             email := "a@x.com", gender := "f", password := HashStr.bcrypt "Passw0rd" 0,
             role := some "user", created_at := 0,
             refresh_token_id := some "rid0",
             refresh_token_hash := some (HashStr.bcrypt "rsec0" 1),
             refresh_token_expires := some 1000 }]
      ∧ (∀ t, t ≤ 100 → decode_access_token
          (Jwt.signed ⟨⟨"7", "a@x.com", some "user"⟩, 0, 100⟩) t
          = Except.ok ⟨⟨"7", "a@x.com", some "user"⟩, 0, 100⟩) := by
  obtain ⟨db', h1, h2, _, _, h5⟩ := C8_logout_revokes_only_refresh
    [{ uid := 7, name := "Ada", surname := "L", date_of_birth := "1990-01-01",
       home_address := "addr", invited_by := "x", phone_number := "000",
       email := "a@x.com", gender := "f", password := HashStr.bcrypt "Passw0rd" 0,
       role := some "user", created_at := 0,
       refresh_token_id := some "rid0",
       refresh_token_hash := some (HashStr.bcrypt "rsec0" 1),
       refresh_token_expires := some 1000 }]
    (Jwt.signed ⟨⟨"7", "a@x.com", some "user"⟩, 0, 100⟩) 1
    ⟨⟨"7", "a@x.com", some "user"⟩, 0, 100⟩ (by decide)
  exact ⟨db', h1, h2, h5⟩

/-! ## Claim C9: token-issuance role fallback is "registrant" -/

/-- C9: when the stored user record carries no role field, the access
tokens issued by login and by the refresh exchange carry role
`"registrant"` (the `existing.get("role", "registrant")` fallback), not
the `"user"` default that signup applies at account creation; the two
defaults differ. -/
theorem C9_registrant_fallback :
    (∀ db lo now fid fsec salt out db' u,
        login db lo now fid fsec salt = Except.ok (out, db') →
        db.find? (fun v => v.email == lo.email) = some u →
        u.role = none →
        out.access_token = Jwt.signed ⟨⟨toString u.uid, u.email, some "registrant"⟩,
          now, now + JWT_EXPIRE_MINUTES * 60⟩)
    ∧ (∀ db now id sec nid nsec salt out db' u,
        refresh_token db now id sec nid nsec salt = Except.ok (out, db') →
        db.find? (fun v => v.refresh_token_id == some id) = some u →
        u.role = none →
        out.access_token = Jwt.signed ⟨⟨toString u.uid, u.email, some "registrant"⟩,
          now, now + JWT_EXPIRE_MINUTES * 60⟩)
    ∧ ("registrant" : String) ≠ "user"
    ∧ (∀ (uc : UserCreate) uid now salt, uc.role = none →
        (mkSignupUser uc uid now salt).role = some "user") := by
  refine ⟨?_, ?_, by decide, ?_⟩
  · intro db lo now fid fsec salt out db' u hok hfind hrole
    unfold login at hok
    split at hok
    · cases hok
    · next existing heq =>
        rw [hfind] at heq
        injection heq with heq
        subst heq
        split at hok
        · cases hok
        · cases hok
        · injection hok with hok
          rw [Prod.mk.injEq] at hok
          obtain ⟨h1, h2⟩ := hok
          rw [← h1]
          simp [create_access_token, roleForToken, hrole]
  · intro db now id sec nid nsec salt out db' u hok hfind hrole
    unfold refresh_token at hok
    split at hok
    · cases hok
    · next user heq =>
        rw [hfind] at heq
        injection heq with heq
        subst heq
        split at hok
        · cases hok
        · next h hh =>
            split at hok
            · cases hok
            · cases hok
            · split at hok
              · cases hok
              · next e he =>
                  split at hok
                  · cases hok
                  · injection hok with hok
                    rw [Prod.mk.injEq] at hok
                    obtain ⟨h1, h2⟩ := hok
                    rw [← h1]
                    simp [create_access_token, roleForToken, hrole]
  · intro uc uid now salt h
    simp [mkSignupUser, h]

/-- Concrete user for witnesses: uid 7, no role field, password
`"Passw0rd"` hashed with salt 0, a stored refresh triple. -/
def wUser : UserRec :=
  { uid := 7, name := "Ada", surname := "L", date_of_birth := "1990-01-01",
    home_address := "addr", invited_by := "x", phone_number := "000",
    email := "a@x.com", gender := "f", password := HashStr.bcrypt "Passw0rd" 0,
    role := none, created_at := 0,
    refresh_token_id := some "rid0",
    refresh_token_hash := some (HashStr.bcrypt "rsec0" 1),
    refresh_token_expires := some 1000 }

/-- The output of a successful login of `wUser` at time 0 drawing
refresh pair `("rid1", "rsec1")` and salt 2. -/
def wOut : LoginOut :=
  { access_token := Jwt.signed ⟨⟨"7", "a@x.com", some "registrant"⟩, 0, 3600⟩,
    token_type := "bearer", refresh_token_id := "rid1", refresh_token := "rsec1" }

/-- The Users collection after that login: the refresh triple rotated. -/
def wDbAfter : List UserRec :=
  [{ wUser with refresh_token_id := some "rid1"
                refresh_token_hash := some (HashStr.bcrypt "rsec1" 2)
                refresh_token_expires := some 2592000 }]

/-- Witness for C9: logging in the role-less `wUser` issues an access
token whose role claim is `"registrant"`. -/
theorem C9_witness :
    wOut.access_token
      = Jwt.signed ⟨⟨"7", "a@x.com", some "registrant"⟩, 0, 0 + JWT_EXPIRE_MINUTES * 60⟩ :=
  C9_registrant_fallback.1 [wUser] ⟨"a@x.com", "Passw0rd"⟩ 0 "rid1" "rsec1" 2
    wOut wDbAfter wUser rfl rfl rfl

/-! ## Claim C10: uncapture decrements unconditionally -/

/-- C10: for every existing event, uncapture succeeds (the combined
pull-and-decrement update always modifies a matched document) and
decrements `total_attendance` by exactly 1 while pulling the attendees
with the given name — also when no attendee with that name is present,
in which case the attendee list is unchanged and the check-in
relationship `total_attendance = length(attendees)`, when it held
before, is broken.  Check-in itself preserves that relationship. -/
theorem C10_uncapture_unconditional_decrement
    (evs : List EventRec) (event_id : Nat) (name : String)
    (now : Nat) (performer : String) (e : EventRec)
    (hfind : evs.find? (fun v => v.eid == event_id) = some e) :
    (∃ evs', uncapture_person evs event_id name now performer
        = Except.ok (name ++ " removed from check-ins.", evs')
      ∧ ∃ e', evs'.find? (fun v => v.eid == event_id) = some e'
        ∧ e'.total_attendance = e.total_attendance - 1
        ∧ e'.attendees = e.attendees.filter (fun a => a.name != name)
        ∧ (e.attendees.all (fun a => a.name != name) = true →
            e'.attendees = e.attendees)
        ∧ (e.attendees.all (fun a => a.name != name) = true →
            e.total_attendance = e.attendees.length →
            e'.total_attendance ≠ e'.attendees.length))
    ∧ (∀ (people : List String) (q : String),
        people.find? (fun s => s.toLower == name.toLower) = some q →
        e.attendees.any (fun a => a.name.toLower == name.toLower) = false →
        ∃ evs2, check_in_person evs people event_id name now performer
            = Except.ok (name ++ " checked in successfully.", evs2)
          ∧ ∃ e2, evs2.find? (fun v => v.eid == event_id) = some e2
            ∧ e2.total_attendance = e.total_attendance + 1
            ∧ e2.attendees = e.attendees ++ [⟨name, now, performer⟩]
            ∧ (e.total_attendance = e.attendees.length →
                e2.total_attendance = e2.attendees.length)) := by
  have hpe : (fun v => v.eid == event_id) e = true :=
    List.find?_some (p := fun (v : EventRec) => v.eid == event_id) hfind
  constructor
  · refine ⟨updateFirst (fun (v : EventRec) => v.eid == event_id)
      (fun (x : EventRec) => { x with
        audit_log := x.audit_log ++ [⟨"uncapture", name, now, performer⟩] })
      (updateFirst (fun (v : EventRec) => v.eid == event_id)
        (fun (x : EventRec) => { x with
          attendees := x.attendees.filter (fun a => a.name != name),
          total_attendance := x.total_attendance - 1 }) evs), ?_, ?_⟩
    · unfold uncapture_person
      rw [hfind]
    · have h1 := find?_updateFirst (fun (v : EventRec) => v.eid == event_id)
        (fun (x : EventRec) => { x with
          attendees := x.attendees.filter (fun a => a.name != name),
          total_attendance := x.total_attendance - 1 }) evs e hfind hpe
      have h2 := find?_updateFirst (fun (v : EventRec) => v.eid == event_id)
        (fun (x : EventRec) => { x with
          audit_log := x.audit_log ++ [⟨"uncapture", name, now, performer⟩] })
        _ _ h1 hpe
      refine ⟨_, h2, rfl, rfl, ?_, ?_⟩
      · intro hall
        exact List.filter_eq_self.mpr (List.all_eq_true.mp hall)
      · intro hall htot
        have hatt : (e.attendees.filter (fun a => a.name != name)) = e.attendees :=
          List.filter_eq_self.mpr (List.all_eq_true.mp hall)
        simp only [hatt]
        rw [htot]
        omega
  · intro people q hq hany
    refine ⟨updateFirst (fun (v : EventRec) => v.eid == event_id)
      (fun (x : EventRec) => { x with
        attendees := x.attendees ++ [⟨name, now, performer⟩],
        total_attendance := x.total_attendance + 1 }) evs, ?_, ?_⟩
    · unfold check_in_person
      rw [hfind, hq]
      simp [hany]
    · have h1 := find?_updateFirst (fun (v : EventRec) => v.eid == event_id)
        (fun (x : EventRec) => { x with
          attendees := x.attendees ++ [⟨name, now, performer⟩],
          total_attendance := x.total_attendance + 1 }) evs e hfind hpe
      refine ⟨_, h1, rfl, rfl, ?_⟩
      intro htot
      simp only [List.length_append, List.length_cons, List.length_nil]
      rw [htot]
      push_cast
      omega

/-- Witness for C10: a concrete event with one attendee "Bob" and
`total_attendance = 1`; uncapturing "Alice" (not checked in) succeeds,
leaves the attendee list unchanged and drops `total_attendance` to 0,
breaking `total_attendance = length(attendees)`. -/
theorem C10_witness :
    (∃ evs', uncapture_person
        [{ eid := 1, service_name := "svc",
           attendees := [⟨"Bob", 0, "u0"⟩], total_attendance := 1, audit_log := [] }]
        1 "Alice" 7 "admin1"
        = Except.ok ("Alice" ++ " removed from check-ins.", evs')
      ∧ ∃ e', evs'.find? (fun v => v.eid == 1) = some e'
        ∧ e'.total_attendance = (1 : Int) - 1
        ∧ e'.attendees = [Attendee.mk "Bob" 0 "u0"].filter (fun a => a.name != "Alice")
        ∧ ([Attendee.mk "Bob" 0 "u0"].all (fun a => a.name != "Alice") = true →
            e'.attendees = [Attendee.mk "Bob" 0 "u0"])
        ∧ ([Attendee.mk "Bob" 0 "u0"].all (fun a => a.name != "Alice") = true →
            (1 : Int) = [Attendee.mk "Bob" 0 "u0"].length →
            e'.total_attendance ≠ e'.attendees.length)) := by
  have h := C10_uncapture_unconditional_decrement
    [{ eid := 1, service_name := "svc",
       attendees := [⟨"Bob", 0, "u0"⟩], total_attendance := 1, audit_log := [] }]
    1 "Alice" 7 "admin1"
    { eid := 1, service_name := "svc",
      attendees := [⟨"Bob", 0, "u0"⟩], total_attendance := 1, audit_log := [] }
    (by decide)
  exact h.1

/-! ## Claim C6: login failure and success behaviour -/

/-- C6: assuming every stored password hash is well formed and the email
unique-index invariant (at most one record per email), login fails with
the single 401 `InvalidCredentials` error — identical whether the email
is unknown or the hash mismatches — exactly when no user record has the
given email or the stored hash does not verify against the given
password; otherwise it succeeds and the response consists of exactly one
access token and one refresh (id, secret) pair. -/
theorem C6_login_uniform_error (db : List UserRec) (lo : UserLogin) (now : Nat)
    (fid fsec : String) (salt : Nat)
    (hwf : passwordsWF db = true)
    (huniq : (db.filter (fun v => v.email == lo.email)).length ≤ 1) :
    (login db lo now fid fsec salt = Except.error HErr.invalidCredentials ↔
       spec_login_invalid db lo = true)
    ∧ (∀ out db', login db lo now fid fsec salt = Except.ok (out, db') →
        ∃ u, db.find? (fun v => v.email == lo.email) = some u
          ∧ out = ⟨Jwt.signed ⟨⟨toString u.uid, u.email, some (roleForToken u)⟩,
              now, now + JWT_EXPIRE_MINUTES * 60⟩, "bearer", fid, fsec⟩)
    ∧ ((∃ r, login db lo now fid fsec salt = Except.ok r)
        ∨ login db lo now fid fsec salt = Except.error HErr.invalidCredentials)
    ∧ HErr.invalidCredentials.status = 401
    ∧ HErr.invalidCredentials.detail = "Invalid credentials" := by
  cases hfind : db.find? (fun v => v.email == lo.email) with
  | none =>
      have hnone := List.find?_eq_none.mp hfind
      have hlog : login db lo now fid fsec salt = Except.error HErr.invalidCredentials := by
        unfold login
        rw [hfind]
      have hspec : spec_login_invalid db lo = true := by
        unfold spec_login_invalid
        rw [Bool.or_eq_true]
        left
        rw [List.all_eq_true]
        intro v hv
        have := hnone v hv
        simpa using this
      refine ⟨⟨fun _ => hspec, fun _ => hlog⟩, ?_, Or.inr hlog, rfl, rfl⟩
      intro out db' h
      rw [hlog] at h
      cases h
  | some u =>
      have hmem := List.mem_of_find?_eq_some hfind
      have hpu : (u.email == lo.email) = true :=
        List.find?_some (p := fun (v : UserRec) => v.email == lo.email) hfind
      have hOnly : ∀ v ∈ db, (v.email == lo.email) = true → v = u := by
        intro v hv hpv
        exact filter_unique huniq hmem hpu v hv hpv
      have hwfu : u.password.wellFormed = true := List.all_eq_true.mp hwf u hmem
      obtain ⟨pp, ss, hps⟩ : ∃ pp ss, u.password = HashStr.bcrypt pp ss := by
        cases hcase : u.password with
        | bcrypt a b => exact ⟨a, b, rfl⟩
        | malformed s =>
            rw [hcase] at hwfu
            cases hwfu
      have hver : verify_password lo.password u.password
          = Except.ok (lo.password == pp) := by
        rw [hps]
        rfl
      have hsv : spec_verify lo.password u.password = (lo.password == pp) := by
        unfold spec_verify
        rw [hver]
      have hallfalse : db.all (fun v => !(v.email == lo.email)) = false := by
        cases hall : db.all (fun v => !(v.email == lo.email)) with
        | false => rfl
        | true =>
            have := List.all_eq_true.mp hall u hmem
            simp only [hpu, Bool.not_true] at this
            cases this
      have hany : db.any (fun v => (v.email == lo.email)
            && !(spec_verify lo.password v.password)) = !(lo.password == pp) := by
        cases hb : lo.password == pp with
        | true =>
            simp only [Bool.not_true]
            cases hanyv : db.any (fun v => (v.email == lo.email)
                && !(spec_verify lo.password v.password)) with
            | false => rfl
            | true =>
                obtain ⟨v, hv, hvp⟩ := List.any_eq_true.mp hanyv
                rw [Bool.and_eq_true] at hvp
                have hveq := hOnly v hv hvp.1
                subst hveq
                rw [hsv, hb] at hvp
                simpa using hvp.2
        | false =>
            simp only [Bool.not_false]
            apply List.any_eq_true.mpr
            refine ⟨u, hmem, ?_⟩
            rw [Bool.and_eq_true, hsv, hb]
            exact ⟨hpu, rfl⟩
      have hspec : spec_login_invalid db lo = !(lo.password == pp) := by
        unfold spec_login_invalid
        rw [hallfalse, hany]
        rfl
      cases hb : lo.password == pp with
      | true =>
          have hlog : login db lo now fid fsec salt = Except.ok
              (⟨Jwt.signed ⟨⟨toString u.uid, u.email, some (roleForToken u)⟩,
                  now, now + JWT_EXPIRE_MINUTES * 60⟩, "bearer", fid, fsec⟩,
                updateFirst (fun v => v.uid == u.uid)
                  (rotateTriple fid (hash_password fsec salt) (now + refreshTtlSeconds)) db) := by
            simp only [login, hfind, hver, hb]
            rfl
          refine ⟨?_, ?_, Or.inl ⟨_, hlog⟩, rfl, rfl⟩
          · rw [hlog, hspec, hb]
            constructor
            · intro h
              cases h
            · intro h
              cases h
          · intro out db' h
            rw [hlog] at h
            injection h with h
            rw [Prod.mk.injEq] at h
            exact ⟨u, rfl, h.1.symm⟩
      | false =>
          have hlog : login db lo now fid fsec salt = Except.error HErr.invalidCredentials := by
            simp only [login, hfind, hver, hb]
          have hspec' : spec_login_invalid db lo = true := by
            rw [hspec, hb]
            rfl
          refine ⟨⟨fun _ => hspec', fun _ => hlog⟩, ?_, Or.inr hlog, rfl, rfl⟩
          intro out db' h
          rw [hlog] at h
          cases h

/-- Witness for C6: a one-user database; login with the right password
succeeds with one token and one refresh pair, and with a wrong password
fails with the uniform `InvalidCredentials` error. -/
theorem C6_witness :
    ((login [wUser] ⟨"a@x.com", "Passw0rd"⟩ 0 "rid1" "rsec1" 2
          = Except.error HErr.invalidCredentials ↔
        spec_login_invalid [wUser] ⟨"a@x.com", "Passw0rd"⟩ = true)
      ∧ (∀ out db', login [wUser] ⟨"a@x.com", "Passw0rd"⟩ 0 "rid1" "rsec1" 2
            = Except.ok (out, db') →
          ∃ u, List.find? (fun v => v.email == "a@x.com") [wUser] = some u
            ∧ out = ⟨Jwt.signed ⟨⟨toString u.uid, u.email, some (roleForToken u)⟩,
                0, 0 + JWT_EXPIRE_MINUTES * 60⟩, "bearer", "rid1", "rsec1"⟩)
      ∧ ((∃ r, login [wUser] ⟨"a@x.com", "Passw0rd"⟩ 0 "rid1" "rsec1" 2 = Except.ok r)
          ∨ login [wUser] ⟨"a@x.com", "Passw0rd"⟩ 0 "rid1" "rsec1" 2
              = Except.error HErr.invalidCredentials)
      ∧ HErr.invalidCredentials.status = 401
      ∧ HErr.invalidCredentials.detail = "Invalid credentials")
    ∧ login [wUser] ⟨"a@x.com", "wrong"⟩ 0 "rid1" "rsec1" 2
        = Except.error HErr.invalidCredentials :=
  ⟨C6_login_uniform_error [wUser] ⟨"a@x.com", "Passw0rd"⟩ 0 "rid1" "rsec1" 2
      (by decide) (by decide), by decide⟩

/-! ## Claim C2: refresh failure characterization and rotation -/

/-- C2: assuming every stored refresh hash is well formed, at most one
record carries the presented id, and `_id`s are unique, the refresh
exchange fails with `RefreshInvalid` if and only if no user record
carries the presented `refresh_token_id`, or the carrying record's
stored hash is absent or does not verify against the presented secret,
or its stored expiry is absent or earlier than now; there is no other
failure mode; and on success the response is a new access token plus
exactly the fresh (id, secret) pair, with the user's single refresh
triple atomically overwritten by the freshly generated one. -/
theorem C2_refresh_characterization (db : List UserRec) (now : Nat)
    (id secret nid nsec : String) (salt : Nat)
    (hwf : refreshHashesWF db = true)
    (huniq : (db.filter (fun v => v.refresh_token_id == some id)).length ≤ 1)
    (hnodup : (db.map (fun v => v.uid)).Nodup) :
    (refresh_token db now id secret nid nsec salt = Except.error HErr.refreshInvalid ↔
       spec_refresh_invalid db now id secret = true)
    ∧ (∀ out db', refresh_token db now id secret nid nsec salt = Except.ok (out, db') →
        out.refresh_token_id = nid ∧ out.refresh_token = nsec ∧ out.token_type = "bearer"
        ∧ db'.length = db.length
        ∧ ∃ u, db.find? (fun v => v.refresh_token_id == some id) = some u
          ∧ out.access_token = Jwt.signed ⟨⟨toString u.uid, u.email, some (roleForToken u)⟩,
              now, now + JWT_EXPIRE_MINUTES * 60⟩
          ∧ db'.find? (fun v => v.uid == u.uid)
              = some (rotateTriple nid (hash_password nsec salt) (now + refreshTtlSeconds) u))
    ∧ ((∃ r, refresh_token db now id secret nid nsec salt = Except.ok r)
        ∨ refresh_token db now id secret nid nsec salt = Except.error HErr.refreshInvalid) := by
  cases hfind : db.find? (fun v => v.refresh_token_id == some id) with
  | none =>
      have hnone := List.find?_eq_none.mp hfind
      have hres : refresh_token db now id secret nid nsec salt
          = Except.error HErr.refreshInvalid := by
        unfold refresh_token
        rw [hfind]
      have hspec : spec_refresh_invalid db now id secret = true := by
        unfold spec_refresh_invalid
        rw [Bool.or_eq_true]
        left
        rw [List.all_eq_true]
        intro v hv
        simpa using hnone v hv
      refine ⟨⟨fun _ => hspec, fun _ => hres⟩, ?_, Or.inr hres⟩
      intro out db' h
      rw [hres] at h
      cases h
  | some u =>
      have hmem := List.mem_of_find?_eq_some hfind
      have hpu : (u.refresh_token_id == some id) = true :=
        List.find?_some (p := fun (v : UserRec) => v.refresh_token_id == some id) hfind
      have hOnly : ∀ v ∈ db, (v.refresh_token_id == some id) = true → v = u := by
        intro v hv hpv
        exact filter_unique huniq hmem hpu v hv hpv
      have hallfalse : db.all (fun v => !(v.refresh_token_id == some id)) = false := by
        cases hall : db.all (fun v => !(v.refresh_token_id == some id)) with
        | false => rfl
        | true =>
            have := List.all_eq_true.mp hall u hmem
            simp only [hpu, Bool.not_true] at this
            cases this
      have hanyIff : db.any (fun v => (v.refresh_token_id == some id)
            && spec_stale now secret v) = spec_stale now secret u := by
        cases hst : spec_stale now secret u with
        | true =>
            apply List.any_eq_true.mpr
            refine ⟨u, hmem, ?_⟩
            rw [Bool.and_eq_true]
            exact ⟨hpu, hst⟩
        | false =>
            cases hanyv : db.any (fun v => (v.refresh_token_id == some id)
                && spec_stale now secret v) with
            | false => rfl
            | true =>
                obtain ⟨v, hv, hvp⟩ := List.any_eq_true.mp hanyv
                rw [Bool.and_eq_true] at hvp
                have hveq := hOnly v hv hvp.1
                rw [hveq] at hvp
                rw [hst] at hvp
                cases hvp.2
      have hspec : spec_refresh_invalid db now id secret = spec_stale now secret u := by
        unfold spec_refresh_invalid
        rw [hallfalse, hanyIff, Bool.false_or]
      cases hhash : u.refresh_token_hash with
      | none =>
          have hres : refresh_token db now id secret nid nsec salt
              = Except.error HErr.refreshInvalid := by
            simp only [refresh_token, hfind, hhash]
          have hstale : spec_stale now secret u = true := by
            simp [spec_stale, hhash]
          refine ⟨⟨fun _ => hspec.trans hstale, fun _ => hres⟩, ?_, Or.inr hres⟩
          intro out db' h
          rw [hres] at h
          cases h
      | some h =>
          have hwfu0 : (match u.refresh_token_hash with
              | none => true
              | some hh => hh.wellFormed) = true := List.all_eq_true.mp hwf u hmem
          rw [hhash] at hwfu0
          obtain ⟨pp, ss, hps⟩ : ∃ pp ss, h = HashStr.bcrypt pp ss := by
            cases hcase : h with
            | bcrypt a b => exact ⟨a, b, rfl⟩
            | malformed s =>
                rw [hcase] at hwfu0
                cases hwfu0
          have hver : verify_password secret h = Except.ok (secret == pp) := by
            rw [hps]
            rfl
          have hsv : spec_verify secret h = (secret == pp) := by
            unfold spec_verify
            rw [hver]
          cases hb : secret == pp with
          | false =>
              have hres : refresh_token db now id secret nid nsec salt
                  = Except.error HErr.refreshInvalid := by
                simp only [refresh_token, hfind, hhash, hver, hb]
              have hstale : spec_stale now secret u = true := by
                simp [spec_stale, hhash, hsv, hb]
              refine ⟨⟨fun _ => hspec.trans hstale, fun _ => hres⟩, ?_, Or.inr hres⟩
              intro out db' hcontr
              rw [hres] at hcontr
              cases hcontr
          | true =>
              cases hexp : u.refresh_token_expires with
              | none =>
                  have hres : refresh_token db now id secret nid nsec salt
                      = Except.error HErr.refreshInvalid := by
                    simp only [refresh_token, hfind, hhash, hver, hb, hexp]
                  have hstale : spec_stale now secret u = true := by
                    simp [spec_stale, hexp]
                  refine ⟨⟨fun _ => hspec.trans hstale, fun _ => hres⟩, ?_, Or.inr hres⟩
                  intro out db' hcontr
                  rw [hres] at hcontr
                  cases hcontr
              | some e =>
                  by_cases hlt : e < now
                  · have hres : refresh_token db now id secret nid nsec salt
                        = Except.error HErr.refreshInvalid := by
                      simp only [refresh_token, hfind, hhash, hver, hb, hexp]
                      rw [if_pos hlt]
                    have hstale : spec_stale now secret u = true := by
                      simp [spec_stale, hexp, hlt]
                    refine ⟨⟨fun _ => hspec.trans hstale, fun _ => hres⟩, ?_, Or.inr hres⟩
                    intro out db' hcontr
                    rw [hres] at hcontr
                    cases hcontr
                  · have hres : refresh_token db now id secret nid nsec salt
                        = Except.ok
                          (⟨Jwt.signed ⟨⟨toString u.uid, u.email, some (roleForToken u)⟩,
                              now, now + JWT_EXPIRE_MINUTES * 60⟩, "bearer", nid, nsec⟩,
                            updateFirst (fun v => v.uid == u.uid)
                              (rotateTriple nid (hash_password nsec salt)
                                (now + refreshTtlSeconds)) db) := by
                      simp only [refresh_token, hfind, hhash, hver, hb, hexp]
                      rw [if_neg hlt]
                      rfl
                    have hstale : spec_stale now secret u = false := by
                      simp [spec_stale, hhash, hsv, hb, hexp, hlt]
                    refine ⟨?_, ?_, Or.inl ⟨_, hres⟩⟩
                    · rw [hres, hspec, hstale]
                      constructor
                      · intro hcontr
                        cases hcontr
                      · intro hcontr
                        cases hcontr
                    · intro out db' hok
                      rw [hres] at hok
                      injection hok with hok
                      rw [Prod.mk.injEq] at hok
                      obtain ⟨hout, hdb⟩ := hok
                      rw [← hout, ← hdb]
                      refine ⟨rfl, rfl, rfl, updateFirst_length _ _ db, u, rfl, rfl, ?_⟩
                      have hfu : db.find? (fun v => v.uid == u.uid) = some u :=
                        find?_uid_self hnodup hmem
                      have hpf : (fun v => v.uid == u.uid)
                          (rotateTriple nid (hash_password nsec salt)
                            (now + refreshTtlSeconds) u) = true := by
                        simp [rotateTriple]
                      exact find?_updateFirst _ _ db u hfu hpf

/-- Witness for C2: the one-user database `[wUser]` whose stored refresh
triple is `("rid0", hash "rsec0", 1000)`, queried at time 5 with the
matching pair. -/
theorem C2_witness :
    (refresh_token [wUser] 5 "rid0" "rsec0" "nid" "nsec" 4
        = Except.error HErr.refreshInvalid ↔
      spec_refresh_invalid [wUser] 5 "rid0" "rsec0" = true)
    ∧ ((∃ r, refresh_token [wUser] 5 "rid0" "rsec0" "nid" "nsec" 4 = Except.ok r)
        ∨ refresh_token [wUser] 5 "rid0" "rsec0" "nid" "nsec" 4
            = Except.error HErr.refreshInvalid) :=
  have h := C2_refresh_characterization [wUser] 5 "rid0" "rsec0" "nid" "nsec" 4
    (by decide) (by decide) (by decide)
  ⟨h.1, h.2.2⟩

/-! ## Claim C1: a rotated refresh pair can never be reused -/

/-- C1: if a refresh exchange with pair (id, secret) succeeds, producing
the rotated database `db'`, then — provided the freshly drawn id differs
from the consumed one, at most one record carried the presented id, and
`_id`s are unique — a second refresh call against `db'` with the same
(id, secret) fails with `RefreshInvalid` at any later time: the rotation
overwrote `refresh_token_id`, so the old id no longer matches any user. -/
theorem C1_rotation_single_use (db : List UserRec) (now now2 : Nat)
    (id secret nid nsec nid2 nsec2 : String) (salt salt2 : Nat)
    (out : LoginOut) (db' : List UserRec)
    (hsucc : refresh_token db now id secret nid nsec salt = Except.ok (out, db'))
    (hfresh : nid ≠ id)
    (huniq : (db.filter (fun v => v.refresh_token_id == some id)).length ≤ 1)
    (hnodup : (db.map (fun v => v.uid)).Nodup) :
    refresh_token db' now2 id secret nid2 nsec2 salt2
      = Except.error HErr.refreshInvalid := by
  cases hfind : db.find? (fun v => v.refresh_token_id == some id) with
  | none =>
      simp only [refresh_token, hfind] at hsucc
      exact Except.noConfusion hsucc
  | some u =>
      have hpu : (u.refresh_token_id == some id) = true :=
        List.find?_some (p := fun (v : UserRec) => v.refresh_token_id == some id) hfind
      cases hhash : u.refresh_token_hash with
      | none =>
          simp only [refresh_token, hfind, hhash] at hsucc
          exact Except.noConfusion hsucc
      | some h =>
          cases hverify : verify_password secret h with
          | error e =>
              simp only [refresh_token, hfind, hhash, hverify] at hsucc
              exact Except.noConfusion hsucc
          | ok b =>
              cases b with
              | false =>
                  simp only [refresh_token, hfind, hhash, hverify] at hsucc
                  exact Except.noConfusion hsucc
              | true =>
                  cases hexp : u.refresh_token_expires with
                  | none =>
                      simp only [refresh_token, hfind, hhash, hverify, hexp] at hsucc
                      exact Except.noConfusion hsucc
                  | some e =>
                      by_cases hlt : e < now
                      · simp only [refresh_token, hfind, hhash, hverify, hexp] at hsucc
                        rw [if_pos hlt] at hsucc
                        exact Except.noConfusion hsucc
                      · simp only [refresh_token, hfind, hhash, hverify, hexp] at hsucc
                        rw [if_neg hlt] at hsucc
                        injection hsucc with hsucc
                        rw [Prod.mk.injEq] at hsucc
                        obtain ⟨hout, hdb⟩ := hsucc
                        obtain ⟨l₁, l₂, hsplit, hl₁, hup⟩ :=
                          find?_split db (fun v => v.refresh_token_id == some id) u hfind
                        have hnodup' : ((l₁ ++ u :: l₂).map (fun v => v.uid)).Nodup := by
                          rw [← hsplit]
                          exact hnodup
                        rw [List.map_append] at hnodup'
                        have hdisj := (List.nodup_append.mp hnodup').2.2
                        have huid_l₁ : ∀ v ∈ l₁,
                            ((fun w => w.uid == u.uid) v) = false := by
                          intro v hv
                          have hvm : v.uid ∈ l₁.map (fun w => w.uid) :=
                            List.mem_map.mpr ⟨v, hv, rfl⟩
                          have hvn : v.uid ∉ (u :: l₂).map (fun w => w.uid) :=
                            fun hc => hdisj hvm hc
                          have : v.uid ≠ u.uid := by
                            intro hc
                            apply hvn
                            rw [hc, List.map_cons]
                            exact List.mem_cons_self _ _
                          simpa using this
                        have hdbeq : db' = l₁ ++ rotateTriple nid (hash_password nsec salt)
                            (now + refreshTtlSeconds) u :: l₂ := by
                          rw [← hdb, hsplit]
                          exact updateFirst_append_cons _ _ l₁ u l₂ huid_l₁ (by simp)
                        have hl₂ : ∀ v ∈ l₂,
                            ((fun w => w.refresh_token_id == some id) v) = false := by
                          have hflt : (db.filter
                              (fun v => v.refresh_token_id == some id)).length
                              = (l₁.filter (fun v => v.refresh_token_id == some id)).length
                                + 1 + (l₂.filter (fun v => v.refresh_token_id == some id)).length := by
                            simp only [hsplit, List.filter_append, List.filter_cons,
                              hup, if_true, List.length_append, List.length_cons]
                            omega
                          have hlen2 : (l₂.filter
                              (fun v => v.refresh_token_id == some id)).length = 0 := by
                            omega
                          have hnil := List.length_eq_zero.mp hlen2
                          intro v hv
                          have := List.filter_eq_nil_iff.mp hnil v hv
                          simpa using this
                        have hnone' : db'.find?
                            (fun v => v.refresh_token_id == some id) = none := by
                          rw [hdbeq, List.find?_eq_none]
                          intro w hw
                          rcases List.mem_append.mp hw with hw | hw
                          · have := hl₁ w hw
                            simp only at this
                            simp [this]
                          · rcases List.mem_cons.mp hw with hw | hw
                            · subst hw
                              simp [rotateTriple, hfresh]
                            · have := hl₂ w hw
                              simp only at this
                              simp [this]
                        unfold refresh_token
                        rw [hnone']

/-- Witness for C1: refreshing `[wUser]`'s pair `("rid0", "rsec0")` at
time 5 succeeds; replaying the same pair against the rotated database
fails with `RefreshInvalid`. -/
theorem C1_witness :
    refresh_token
        [{ wUser with refresh_token_id := some "nid"
                      refresh_token_hash := some (HashStr.bcrypt "nsec" 4)
                      refresh_token_expires := some (5 + refreshTtlSeconds) }]
        6 "rid0" "rsec0" "nid2" "nsec2" 9
      = Except.error HErr.refreshInvalid :=
  C1_rotation_single_use [wUser] 5 6 "rid0" "rsec0" "nid" "nsec" "nid2" "nsec2" 4 9
    ⟨Jwt.signed ⟨⟨"7", "a@x.com", some "registrant"⟩, 5, 5 + JWT_EXPIRE_MINUTES * 60⟩,
      "bearer", "nid", "nsec"⟩
    [{ wUser with refresh_token_id := some "nid"
                  refresh_token_hash := some (HashStr.bcrypt "nsec" 4)
                  refresh_token_expires := some (5 + refreshTtlSeconds) }]
    rfl (by decide) (by decide) (by decide)

/-! ## Claim C7: signup validation -/

/-- A signup request whose password has 13 characters, letters and
digits — but an interior newline. -/
def uc_newline : UserCreate :=
  { name := "N", surname := "S", date_of_birth := "d", home_address := "h",
    invited_by := "i", phone_number := "p", email := "n@x.com", gender := "g",
    password := "abcd\nefgh1234", role := none }

/-- C7 counterexample: the password `"abcd\nefgh1234"` has at least 8
characters and contains letters and digits, and the email is untaken —
yet signup rejects it with `WeakPassword`, because `.{8,}` in the
anchored `PASSWORD_REGEX` cannot cross the newline.  This refutes the
claim's reading of the rule as exactly "at least 8 characters containing
at least one letter and one digit". -/
theorem C7_counterexample :
    signup [] uc_newline 1 0 0 = Except.error HErr.weakPassword
    ∧ 8 ≤ uc_newline.password.length
    ∧ uc_newline.password.data.any isAsciiLetter = true
    ∧ uc_newline.password.data.any Char.isDigit = true
    ∧ (∀ v ∈ ([] : List UserRec), v.email ≠ uc_newline.email) := by
  refine ⟨by decide, by decide, by decide, by decide, ?_⟩
  intro v hv
  cases hv

/-- A signup request with a strong newline-free password. -/
def uc_good : UserCreate :=
  { name := "N", surname := "S", date_of_birth := "d", home_address := "h",
    invited_by := "i", phone_number := "p", email := "n@x.com", gender := "g",
    password := "Passw0rd1", role := none }

/-- C7 (amended): signup fails with `EmailTaken` (400) when a record
with the requested email exists; otherwise it fails with `WeakPassword`
(400) unless the password matches the anchored `PASSWORD_REGEX` — at
least 8 non-newline characters containing at least one letter and one
digit, followed by at most a single trailing newline; for newline-free
passwords this is exactly length ≥ 8 with a letter and a digit.
Otherwise it inserts the new user, whose role is the supplied role, or
`"user"` when the role is absent or empty; the response carries no
tokens, only a message. -/
theorem C7_signup_validation (db : List UserRec) (u : UserCreate) (uid now salt : Nat) :
    ((∃ v ∈ db, v.email = u.email) →
      signup db u uid now salt = Except.error HErr.emailTaken)
    ∧ ((∀ v ∈ db, v.email ≠ u.email) → password_regex_match u.password = false →
      signup db u uid now salt = Except.error HErr.weakPassword)
    ∧ ((∀ v ∈ db, v.email ≠ u.email) → password_regex_match u.password = true →
      signup db u uid now salt
        = Except.ok ("User created successfully", db ++ [mkSignupUser u uid now salt]))
    ∧ (u.role = none → (mkSignupUser u uid now salt).role = some "user")
    ∧ (u.role = some "" → (mkSignupUser u uid now salt).role = some "user")
    ∧ (∀ r, u.role = some r → r ≠ "" → (mkSignupUser u uid now salt).role = some r)
    ∧ ((mkSignupUser u uid now salt).refresh_token_id = none
        ∧ (mkSignupUser u uid now salt).refresh_token_hash = none
        ∧ (mkSignupUser u uid now salt).refresh_token_expires = none)
    ∧ (∀ q : String, (∀ c ∈ q.data, c ≠ '\n') →
        (password_regex_match q = true ↔
          8 ≤ q.length ∧ q.data.any isAsciiLetter = true ∧ q.data.any Char.isDigit = true)) := by
  refine ⟨?_, ?_, ?_, ?_, ?_, ?_, ⟨rfl, rfl, rfl⟩, ?_⟩
  · intro ⟨v, hv, hve⟩
    cases hfind : db.find? (fun w => w.email == u.email) with
    | none =>
        have := List.find?_eq_none.mp hfind v hv
        rw [hve] at this
        simp at this
    | some w =>
        unfold signup
        rw [hfind]
  · intro hnone hregex
    have hfind : db.find? (fun w => w.email == u.email) = none := by
      rw [List.find?_eq_none]
      intro v hv
      have := hnone v hv
      simpa using this
    simp [signup, hfind, hregex]
  · intro hnone hregex
    have hfind : db.find? (fun w => w.email == u.email) = none := by
      rw [List.find?_eq_none]
      intro v hv
      have := hnone v hv
      simpa using this
    simp [signup, hfind, hregex]
  · intro h
    simp [mkSignupUser, h]
  · intro h
    simp [mkSignupUser, h]
  · intro r hr hne
    simp [mkSignupUser, hr, hne]
  · intro q hnl
    have ht : q.data.takeWhile (fun c => c != '\n') = q.data :=
      List.takeWhile_eq_self_iff.mpr (fun c hc => by simpa using hnl c hc)
    have hd : q.data.dropWhile (fun c => c != '\n') = [] :=
      List.dropWhile_eq_nil_iff.mpr (fun c hc => by simpa using hnl c hc)
    unfold password_regex_match regexCore
    simp only [ht, hd, List.isEmpty_nil, Bool.true_or, Bool.and_true,
      Bool.and_eq_true, decide_eq_true_eq]
    constructor
    · intro hh
      exact ⟨hh.1.1, hh.1.2, hh.2⟩
    · intro hh
      exact ⟨⟨hh.1, hh.2.1⟩, hh.2.2⟩

/-- Witness for C7: signing up `uc_good` (password "Passw0rd1", no role)
on an empty database inserts the user with role `"user"`; signing up
`uc_newline` on a database already containing that email fails with
`EmailTaken`. -/
theorem C7_witness :
    signup [] uc_good 1 0 0
      = Except.ok ("User created successfully", [] ++ [mkSignupUser uc_good 1 0 0])
    ∧ (mkSignupUser uc_good 1 0 0).role = some "user"
    ∧ signup [mkSignupUser uc_good 1 0 0] uc_good 2 9 9 = Except.error HErr.emailTaken := by
  have h1 := C7_signup_validation [] uc_good 1 0 0
  have h2 := C7_signup_validation [mkSignupUser uc_good 1 0 0] uc_good 2 9 9
  refine ⟨h1.2.2.1 ?_ (by decide), h1.2.2.2.1 rfl, h2.1 ?_⟩
  · intro v hv
    cases hv
  · exact ⟨mkSignupUser uc_good 1 0 0, List.mem_singleton.mpr rfl, rfl⟩

end ActiveTeams
